import Mathlib

/-!
Shallow embedding of `GangaSNOplus/Lib/RATProd.py`: the `RATProd`
application's `configure` method, the `RATSplitter.split` subjob splitter,
and the argument assembly of the `RTHandler`, `WGRTHandler` and
`LCGRTHandler` `prepare` methods.

Modelling conventions:
* a Python string is a `String` (a sequence of characters);
* a Python list is a `List`;
* a value that may be Python `None` is an `Option`;
* a Python `raise` is `Except.error ()`;
* the framework's config registry entries `rat_db_*` (read both by
  `configure` via `config[...]` and by the handlers via `app.config[...]`)
  are a `DBConfig` record passed explicitly;
* the pieces of ambient state a handler reads (the plugin directory
  `_app_directory`, `os.getlogin()`, `os.environ["X509_USER_PROXY"]`,
  `os.path.exists`) are passed as explicit parameters.
-/

/-- A schema field declared `typelist=['list','str']`: it holds either a
single string or a list of strings (the `inputFiles` / `outputFiles` items
of the `RATProd` schema, RATProd.py lines 70 and 76). -/
inductive FileField where
  | str (s : String)
  | list (l : List String)
  deriving DecidableEq, Repr

/-- Iterating a `FileField` the way a Python `for` loop does: a list
yields its elements, a string yields its one-character substrings. -/
def FileField.seq : FileField → List String
  | .str s => s.data.map (fun c => String.mk [c])
  | .list l => l

/-- Whether the field currently holds a list (Python `type(x) is list`). -/
def FileField.isList : FileField → Bool
  | .str _ => false
  | .list _ => true

/-- The `environment` schema item: `None`, a single file path, or a list
of shell command strings (RATProd.py line 66). -/
inductive EnvSpec where
  | noEnv
  | pathFile (p : String)
  | cmdList (l : List String)
  deriving DecidableEq, Repr

/-- The `RATProd` application schema (RATProd.py lines 65-92), restricted
to the fields the modelled methods read.  The source field `ratMacro` is
embedded as `ratMacroPath`. -/
structure RATProd where
  environment : EnvSpec := .noEnv
  discardOutput : Bool := false
  inputDir : String := ""
  inputFiles : FileField := .list []
  outputLog : String := "rat_output.log"
  outputDir : String := ""
  outputFiles : FileField := .list []
  prodScript : String := ""
  ratDirectory : String := ""
  ratMacroPath : String := ""
  ratVersion : String := "4"
  useDB : Bool := false
  deriving DecidableEq, Repr

/-- The `rat_db_*` entries of the framework configuration registry, all
of which default to `None` (RATProd.py lines 80-84 declare the schema
twins; `configure` and the handlers read the registry values). -/
structure DBConfig where
  rat_db_name : Option String := Option.none
  rat_db_pswd : Option String := Option.none
  rat_db_protocol : Option String := Option.none
  rat_db_url : Option String := Option.none
  rat_db_user : Option String := Option.none
  deriving DecidableEq, Repr

/-- Python truthiness of an optional string: `None` and `''` are falsy. -/
def pyTruthy : Option String → Bool
  | Option.none => false
  | Option.some s => s ≠ ""

/-- Python `'%s' % x` rendering of an optional string: `None` renders as
the text `None`. -/
def pyShow : Option String → String
  | Option.none => "None"
  | Option.some s => s

/-- Embedding of `RATProd.configure` (RATProd.py lines 97-135).  Returns the updated
application together with the names appended to the input sandbox and to
the output sandbox; a `raise` is `Except.error ()`.  The checks run in
source order: script/macro exclusivity, then the database password, and
only then are sandbox files recorded and the string-typed file fields
coerced to one-element lists. -/
def RATProd.configure (app : RATProd) (config : DBConfig) :
    Except Unit (RATProd × List String × List String) :=
  if app.prodScript = "" ∧ app.ratMacroPath = "" then .error ()
  else if app.prodScript ≠ "" ∧ app.ratMacroPath ≠ "" then .error ()
  else if app.useDB ∧ pyTruthy config.rat_db_pswd = false then .error ()
  else
    let inbox := if app.ratMacroPath ≠ "" then [app.ratMacroPath] else [app.prodScript]
    let outbox := (if app.ratMacroPath ≠ "" then ["rat.log"] else []) ++ ["return_card.js"]
    let app := { app with
      inputFiles := match app.inputFiles with
        | .str s => .list [s]
        | f => f,
      outputFiles := match app.outputFiles with
        | .str s => .list [s]
        | f => f }
    .ok (app, inbox, outbox)

/-- The `RATSplitter` schema (RATProd.py lines 143-148): parallel lists of
output-file entries, input-file entries, scripts and macros.  The entry
types are kept abstract because the splitter never inspects an entry; the
source field `ratMacro` is embedded as `ratMacros`. -/
structure SplitRequest (α β : Type) where
  outputFiles : List α
  inputFiles : List β
  prodScript : List String
  ratMacros : List String

/-- The `nFiles` computed by `RATSplitter.split` (RATProd.py lines
156-166): the output-list length when outputs are present, else the
input-list length. -/
def SplitRequest.fileCount {α β : Type} (r : SplitRequest α β) : Nat :=
  if r.outputFiles.length ≠ 0 then r.outputFiles.length else r.inputFiles.length

/-- The fields `RATSplitter.split` sets on a subjob's application; `none`
means the splitter left the parent's value in place (RATProd.py lines
195-211). -/
structure SubJob (α β : Type) where
  outputFiles : Option α := Option.none
  inputFiles : Option β := Option.none
  ratMacroPath : Option String := Option.none
  prodScript : Option String := Option.none
  deriving DecidableEq, Repr

/-- Embedding of `RATSplitter.split` (RATProd.py lines 150-212).  The guards appear in
source order; `fin` / `fout` (`len(...)==0` flags) are inlined as length
tests.  Indexing uses `l[i]?`: every index reached is in range, which the
validation guarantees (proved below). -/
def RATSplitter.split {α β : Type} (r : SplitRequest α β) :
    Except Unit (List (SubJob α β)) :=
  if r.prodScript.length ≠ 0 ∧ r.ratMacros.length ≠ 0 then .error ()
  else if r.prodScript.length = 0 ∧ r.ratMacros.length = 0 then .error ()
  else if r.inputFiles.length = 0 ∧ r.outputFiles.length = 0 then .error ()
  else if r.inputFiles.length ≠ 0 ∧ r.outputFiles.length ≠ 0 ∧
      r.inputFiles.length ≠ r.outputFiles.length then .error ()
  else if r.prodScript.length ≠ 0 ∧ r.prodScript.length ≠ r.fileCount then .error ()
  else if r.ratMacros.length ≠ 0 ∧ r.ratMacros.length ≠ r.fileCount then .error ()
  else .ok ((List.range r.fileCount).map fun i =>
    { outputFiles := if r.outputFiles.length ≠ 0 then r.outputFiles[i]? else Option.none
      inputFiles := if r.inputFiles.length ≠ 0 then r.inputFiles[i]? else Option.none
      ratMacroPath := if r.ratMacros.length ≠ 0 then r.ratMacros[i]? else Option.none
      prodScript := if r.ratMacros.length ≠ 0 then Option.none else r.prodScript[i]? })

/-- The inline loop every `prepare` runs to render a file list
(RATProd.py lines 244-253): start from `[`, append `%s,` per element, and
only when the accumulated text is longer than one character replace the
final comma with `]`.  Python strings are character sequences, so the
slice `[:-1]` is `List.dropLast` on the character list. -/
def serializeFileList (files : List String) : String :=
  let s := files.foldl (fun acc v => acc ++ v.data ++ [',']) ['[']
  if s.length ≠ 1 then ⟨s.dropLast ++ [']']⟩ else ⟨s⟩

/-- Python `s.split('/')` for the one-character separator `/`: splits the
character list at every slash, keeping empty segments. -/
def splitOnSlash (s : String) : List String :=
  (s.data.foldr
    (fun ch acc =>
      if ch = '/' then [] :: acc
      else match acc with
        | r :: rest => (ch :: r) :: rest
        | [] => [[ch]])
    [[]]).map (fun l => String.mk l)

/-- Embedding of `decimated = path.split('/'); decimated[len(decimated)-1]`, the
run-file-name resolution every `prepare` performs (RATProd.py lines
237-242). -/
def lastSlashComponent (path : String) : String :=
  let decimated := splitOnSlash path
  decimated.getD (decimated.length - 1) ""

/-- The run-file name a `prepare` method resolves: the last `/`-separated
component of the macro path in macro mode, else of the script path
(RATProd.py lines 237-242). -/
def runFileName (ratMacroPath prodScript : String) : String :=
  if ratMacroPath ≠ "" then lastSlashComponent ratMacroPath
  else lastSlashComponent prodScript

/-- The five database tokens appended in list form when `useDB` is set
(RATProd.py lines 267-272). -/
def dbArgTokens (config : DBConfig) : List String :=
  ["--dbuser", pyShow config.rat_db_user,
   "--dbpassword", pyShow config.rat_db_pswd,
   "--dbname", pyShow config.rat_db_name,
   "--dbprotocol", pyShow config.rat_db_protocol,
   "--dburl", pyShow config.rat_db_url]

/-- The five database tokens appended in string form when `useDB` is set
(RATProd.py lines 305-310, 389-394, 462-467). -/
def dbArgString (config : DBConfig) : String :=
  "--dbuser " ++ pyShow config.rat_db_user ++ " " ++
  "--dbpassword " ++ pyShow config.rat_db_pswd ++ " " ++
  "--dbname " ++ pyShow config.rat_db_name ++ " " ++
  "--dbprotocol " ++ pyShow config.rat_db_protocol ++ " " ++
  "--dburl " ++ pyShow config.rat_db_url ++ " "

/-- What a `prepare` method hands to the job-config constructor: the
script file to run and its argument list. -/
structure JobCfg where
  appFile : String
  args : List String
  deriving DecidableEq, Repr

/-- Embedding of `RTHandler.prepare` (RATProd.py lines 219-321), the local/batch
handler.  `appDir` embeds `_app_directory` and `login` embeds
`os.getlogin()` (used only to name the temporary environment file).  With
no environment override the arguments are assembled as a token list; with
an override they are assembled as a single string handed to the wrapper
script together with the `misc` launcher tag and the environment file
name. -/
def RTHandler.prepare (appDir login : String) (app : RATProd) (config : DBConfig) :
    Except Unit JobCfg :=
  if app.ratDirectory = "" then .error ()
  else
    let swDir := app.ratDirectory
    let macroFile := lastSlashComponent app.ratMacroPath
    let prodFile := lastSlashComponent app.prodScript
    let foutList := serializeFileList app.outputFiles.seq
    let finList := serializeFileList app.inputFiles.seq
    match app.environment with
    | .noEnv =>
      let args : List String := []
      let args := args ++ ["-v", app.ratVersion]
      let args := args ++ ["-s", swDir]
      let args := args ++ ["-d", app.outputDir]
      let args := args ++ ["-o", foutList]
      let args := args ++ ["-x", app.inputDir]
      let args := args ++ ["-i", finList]
      let args := args ++
        (if app.ratMacroPath ≠ "" then ["-m", macroFile] else ["-k", "-m", prodFile])
      let args := args ++ (if app.useDB then dbArgTokens config else [])
      let args := args ++ (if app.discardOutput then ["--nostore"] else [])
      .ok ⟨appDir ++ "/ratProdRunner.py", args⟩
    | env =>
      let envFile := match env with
        | .cmdList _ => "tempRATProdEnv_" ++ login
        | .pathFile p => lastSlashComponent p
        | .noEnv => ""
      let args := ""
      let args := args ++ ("-v " ++ app.ratVersion ++ " ")
      let args := args ++ ("-s " ++ swDir ++ " ")
      let args := args ++ ("-d " ++ app.outputDir ++ " ")
      let args := args ++ ("-o " ++ foutList ++ " ")
      let args := args ++ ("-x " ++ app.inputDir ++ " ")
      let args := args ++ ("-i " ++ finList ++ " ")
      let args := args ++
        (if app.ratMacroPath ≠ "" then "-m " ++ macroFile ++ " "
         else "-k -m " ++ prodFile ++ " ")
      let args := args ++ (if app.useDB then dbArgString config else "")
      let args := args ++ (if app.discardOutput then "--nostore " else "")
      let wrapperArgs := ["-s", "ratProdRunner.py", "-l", "misc", "-f", envFile, "-a", args]
      .ok ⟨appDir ++ "/sillyPythonWrapper.py", wrapperArgs⟩

/-- Embedding of `WGRTHandler.prepare` (RATProd.py lines 328-405), the WestGrid
handler.  `backendVoproxy` embeds `job.backend.voproxy`, `envProxy` the
`X509_USER_PROXY` environment variable, and `pathExists` the
`os.path.exists` check on the resolved proxy path. -/
def WGRTHandler.prepare (appDir : String) (app : RATProd) (config : DBConfig)
    (backendVoproxy envProxy : Option String) (pathExists : String → Bool) :
    Except Unit JobCfg :=
  if app.ratDirectory = "" then .error ()
  else
    let swDir := app.ratDirectory
    match (match backendVoproxy with
      | Option.some v => Option.some v
      | Option.none => envProxy) with
    | Option.none => .error ()
    | Option.some voproxy =>
      if pathExists voproxy = false then .error ()
      else
        let macroFile := lastSlashComponent app.ratMacroPath
        let prodFile := lastSlashComponent app.prodScript
        let foutList := serializeFileList app.outputFiles.seq
        let finList := serializeFileList app.inputFiles.seq
        let args := ""
        let args := args ++ "-g srm "
        let args := args ++ ("-v " ++ app.ratVersion ++ " ")
        let args := args ++ ("-s " ++ swDir ++ " ")
        let args := args ++ ("-d " ++ app.outputDir ++ " ")
        let args := args ++ ("-o " ++ foutList ++ " ")
        let args := args ++ ("-x " ++ app.inputDir ++ " ")
        let args := args ++ ("-i " ++ finList ++ " ")
        let args := args ++
          (if app.ratMacroPath ≠ "" then "-m " ++ macroFile ++ " "
           else "-k -m " ++ prodFile ++ " ")
        let args := args ++ ("--voproxy " ++ voproxy ++ " ")
        let args := args ++ (if app.useDB then dbArgString config else "")
        let args := args ++ (if app.discardOutput then "--nostore " else "")
        let wrapperArgs := ["-s", "ratProdRunner.py", "-l", "wg", "-a", args]
        .ok ⟨appDir ++ "/sillyPythonWrapper.py", wrapperArgs⟩

/-- The software directory the LCG handler uses: the default grid
location when `ratDirectory` is empty (RATProd.py lines 423-427). -/
def lcgSwDir (app : RATProd) : String :=
  if app.ratDirectory = "" then "$VO_SNOPLUS_SNOLAB_CA_SW_DIR/snoing-install"
  else app.ratDirectory

/-- Embedding of `LCGRTHandler.prepare` (RATProd.py lines 413-478), the LCG grid
handler.  It has no failure path: an empty `ratDirectory` selects the
default grid software directory. -/
def LCGRTHandler.prepare (appDir : String) (app : RATProd) (config : DBConfig) :
    Except Unit JobCfg :=
  let swDir := lcgSwDir app
  let macroFile := lastSlashComponent app.ratMacroPath
  let prodFile := lastSlashComponent app.prodScript
  let foutList := serializeFileList app.outputFiles.seq
  let finList := serializeFileList app.inputFiles.seq
  let args := ""
  let args := args ++ "-g lcg "
  let args := args ++ ("-v " ++ app.ratVersion ++ " ")
  let args := args ++ ("-s " ++ swDir ++ " ")
  let args := args ++ ("-d " ++ app.outputDir ++ " ")
  let args := args ++ ("-o " ++ foutList ++ " ")
  let args := args ++ ("-x " ++ app.inputDir ++ " ")
  let args := args ++ ("-i " ++ finList ++ " ")
  let args := args ++
    (if app.ratMacroPath ≠ "" then "-m " ++ macroFile ++ " "
     else "-k -m " ++ prodFile ++ " ")
  let args := args ++ (if app.useDB then dbArgString config else "")
  let args := args ++ (if app.discardOutput then "--nostore " else "")
  let wrapperArgs := ["-s", "ratProdRunner.py", "-l", "lcg", "-a", "\"" ++ args ++ "\""]
  .ok ⟨appDir ++ "/sillyPythonWrapper.py", wrapperArgs⟩

/-- Whether an `Except` result is a success. -/
def exceptOk {ε σ : Type} : Except ε σ → Bool
  | .ok _ => true
  | .error _ => false

/-- The comma-joined rendering the specification describes: elements
separated by commas, no trailing comma. -/
def commaJoin : List String → String
  | [] => ""
  | [a] => a
  | a :: b :: rest => a ++ "," ++ commaJoin (b :: rest)

/-- The fixed leading tokens of the list-form argument assembly
(RATProd.py lines 256-262), grouped for the statements below. -/
def baseTokens (app : RATProd) : List String :=
  ["-v", app.ratVersion, "-s", app.ratDirectory, "-d", app.outputDir,
   "-o", serializeFileList app.outputFiles.seq, "-x", app.inputDir,
   "-i", serializeFileList app.inputFiles.seq]

/-- The macro-or-script tokens of the list-form assembly (RATProd.py
lines 263-266). -/
def modeTokens (app : RATProd) : List String :=
  if app.ratMacroPath ≠ "" then ["-m", lastSlashComponent app.ratMacroPath]
  else ["-k", "-m", lastSlashComponent app.prodScript]

/-- The trailing `--nostore` token of the list-form assembly (RATProd.py
lines 273-274). -/
def storeTokens (app : RATProd) : List String :=
  if app.discardOutput then ["--nostore"] else []

/-- The shared core of the string-form argument assembly: version,
software dir, output dir, output list, input dir, input list, then the
macro or script token (RATProd.py lines 295-304, 378-387, 452-461). -/
def coreArgString (app : RATProd) (swDir : String) : String :=
  "-v " ++ app.ratVersion ++ " " ++
  "-s " ++ swDir ++ " " ++
  "-d " ++ app.outputDir ++ " " ++
  "-o " ++ serializeFileList app.outputFiles.seq ++ " " ++
  "-x " ++ app.inputDir ++ " " ++
  "-i " ++ serializeFileList app.inputFiles.seq ++ " " ++
  (if app.ratMacroPath ≠ "" then "-m " ++ lastSlashComponent app.ratMacroPath ++ " "
   else "-k -m " ++ lastSlashComponent app.prodScript ++ " ")

/-- The five database flag names, used to state that none of them is
emitted when `useDB` is off. -/
def dbFlagNames : List String :=
  ["--dbuser", "--dbpassword", "--dbname", "--dbprotocol", "--dburl"]

/-- The value tokens of the list-form assembly that come from user-chosen
fields (everything except the fixed flag literals). -/
def valueTokens (app : RATProd) : List String :=
  [app.ratVersion, app.ratDirectory, app.outputDir,
   serializeFileList app.outputFiles.seq, app.inputDir,
   serializeFileList app.inputFiles.seq,
   lastSlashComponent app.ratMacroPath, lastSlashComponent app.prodScript]

/-- Sample application for the configure witnesses: script mode, a
string-typed input-file field. -/
def cfgApp0 : RATProd :=
  { prodScript := "sub/s.sh", inputFiles := .str "f.root",
    outputFiles := .list ["o.root"] }

/-- The result `RATProd.configure` produces on `cfgApp0`. -/
def cfgRes0 : RATProd × List String × List String :=
  ({ cfgApp0 with inputFiles := .list ["f.root"] }, ["sub/s.sh"], ["return_card.js"])

/-- Sample application for the database-password witness. -/
def cfgApp1 : RATProd :=
  { prodScript := "sub/s.sh", useDB := true }

/-- Sample split request for the splitter witnesses: two output groups,
two input groups, two macros, no scripts. -/
def splitReq0 : SplitRequest String String :=
  ⟨["o1", "o2"], ["f1", "f2"], [], ["m1", "m2"]⟩

/-- The subjob list `RATSplitter.split` produces on `splitReq0`. -/
def splitSub0 : List (SubJob String String) :=
  [{ outputFiles := Option.some ("o1"), inputFiles := Option.some ("f1"),
     ratMacroPath := Option.some ("m1") },
   { outputFiles := Option.some ("o2"), inputFiles := Option.some ("f2"),
     ratMacroPath := Option.some ("m2") }]

/-- Sample application for the handler witnesses: macro mode, explicit
software directory, discarded output. -/
def prepApp0 : RATProd :=
  { ratMacroPath := "mac/run.mac", ratDirectory := "sw", discardOutput := true }

/-- Sample application for the LCG counterexample: macro mode with an
empty `ratDirectory`. -/
def lcgApp0 : RATProd :=
  { ratMacroPath := "mac/run.mac" }

/-- Sample application for the database-token witness: macro mode with
`useDB` on. -/
def prepApp1 : RATProd :=
  { ratMacroPath := "mac/run.mac", ratDirectory := "sw", useDB := true }

theorem foldl_render (l : List String) (init : List Char) :
    l.foldl (fun acc v => acc ++ v.data ++ [',']) init
      = init ++ (l.map (fun v => v.data ++ [','])).flatten := by
  induction l generalizing init with
  | nil => simp
  | cons a t ih => rw [List.foldl_cons, ih]; simp [List.append_assoc]

theorem rendered_dropLast (a : String) (t : List String) :
    ((a :: t).map (fun v => v.data ++ [','])).flatten.dropLast
      = (commaJoin (a :: t)).data := by
  induction t generalizing a with
  | nil => simp [commaJoin, List.dropLast_concat]
  | cons b t' ih =>
    have hne : ((b :: t').map (fun v => v.data ++ [','])).flatten ≠ [] := by
      simp
    calc ((a :: b :: t').map (fun v => v.data ++ [','])).flatten.dropLast
        = ((a.data ++ [',']) ++ ((b :: t').map (fun v => v.data ++ [','])).flatten).dropLast := by
          simp [List.append_assoc]
      _ = (a.data ++ [',']) ++ ((b :: t').map (fun v => v.data ++ [','])).flatten.dropLast := by
          rw [List.dropLast_append_of_ne_nil _ hne]
      _ = (commaJoin (a :: b :: t')).data := by
          rw [ih]
          show _ = (a ++ "," ++ commaJoin (b :: t')).data
          simp [String.data_append, List.append_assoc]

/-- C3 counterexample: the serializer renders the empty list as the text
`[`, not `[]` as the claim states. -/
theorem serializeFileList_empty_counterexample :
    serializeFileList [] = "[" ∧ serializeFileList [] ≠ "[]" := by
  exact ⟨rfl, by decide⟩

/-- C3 (amended): the serialized list token is the single character `[`
for the empty list, and the bracketed comma-joined rendering with no
trailing comma (`[a]`, `[a,b]`, ...) for every non-empty list. -/
theorem serializeFileList_amended :
    serializeFileList [] = "[" ∧
    ∀ l : List String, l ≠ [] → serializeFileList l = "[" ++ commaJoin l ++ "]" := by
  constructor
  · rfl
  · intro l hl
    match l with
    | a :: t =>
      unfold serializeFileList
      rw [foldl_render]
      have hlen : (['['] ++ ((a :: t).map (fun v => v.data ++ [','])).flatten).length ≠ 1 := by
        simp [List.length_append]
      rw [if_pos hlen]
      apply String.ext
      rw [List.dropLast_append_of_ne_nil _ (by simp), rendered_dropLast]
      simp [String.data_append]

/-- C3 amended witness at the two-element list. -/
theorem serializeFileList_amended_witness :
    (["a", "b"] : List String) ≠ [] ∧
    serializeFileList ["a", "b"] = "[" ++ commaJoin ["a", "b"] ++ "]" :=
  ⟨by decide, serializeFileList_amended.2 ["a", "b"] (by decide)⟩

/-- C6: with `useDB` set and a database password that is unset or empty
(Python-falsy) in the configuration registry, `RATProd.configure` raises,
so the job never reaches backend preparation with the flag set and no
password. -/
theorem configure_fails_without_db_password (app : RATProd) (config : DBConfig)
    (hdb : app.useDB = true) (hps : pyTruthy config.rat_db_pswd = false) :
    RATProd.configure app config = .error () := by
  unfold RATProd.configure
  split_ifs with h1 h2 h3
  · rfl
  · rfl
  · rfl
  · exact absurd ⟨by simp [hdb], hps⟩ h3

/-- C6 witness: a script-mode application with `useDB` on and the default
(unset) registry password. -/
theorem configure_fails_without_db_password_witness :
    cfgApp1.useDB = true ∧ pyTruthy ({} : DBConfig).rat_db_pswd = false ∧
    RATProd.configure cfgApp1 {} = .error () :=
  ⟨rfl, rfl, configure_fails_without_db_password cfgApp1 {} rfl rfl⟩

theorem getD_last {α : Type} (l : List α) (d : α) :
    l.getD (l.length - 1) d = l.getLast?.getD d := by
  rw [List.getD_eq_getElem?_getD, List.getLast?_eq_getElem?]

/-- C8: the resolved run-file name is the last `/`-separated component of
the macro path in macro mode and of the script path otherwise. -/
theorem runFileName_last_component (m s : String) :
    (m ≠ "" → runFileName m s = ((splitOnSlash m).getLast?).getD ("")) ∧
    (m = "" → runFileName m s = ((splitOnSlash s).getLast?).getD ("")) := by
  constructor
  · intro hm
    simp only [runFileName, if_pos hm, lastSlashComponent, getD_last]
  · intro hm
    simp only [runFileName, hm, lastSlashComponent, getD_last]
    simp

/-- C8 witness: a two-component macro path resolves to its final
component. -/
theorem runFileName_last_component_witness :
    ("mac/run.mac" : String) ≠ "" ∧
    runFileName ("mac/run.mac") ("") = (((splitOnSlash ("mac/run.mac")).getLast?).getD ("")) ∧
    runFileName ("mac/run.mac") ("") = "run.mac" :=
  ⟨by decide, (runFileName_last_component ("mac/run.mac") ("")).1 (by decide), rfl⟩

/-- C10: a successful `configure` replaces a string-typed `inputFiles` or
`outputFiles` field by the one-element list holding that string, and
after it returns both fields are lists. -/
theorem configure_normalizes_file_fields (app : RATProd) (config : DBConfig)
    (res : RATProd × List String × List String)
    (h : RATProd.configure app config = .ok res) :
    (∀ s, app.inputFiles = .str s → res.1.inputFiles = .list [s]) ∧
    (∀ s, app.outputFiles = .str s → res.1.outputFiles = .list [s]) ∧
    (∀ l, app.inputFiles = .list l → res.1.inputFiles = .list l) ∧
    (∀ l, app.outputFiles = .list l → res.1.outputFiles = .list l) ∧
    res.1.inputFiles.isList = true ∧ res.1.outputFiles.isList = true := by
  unfold RATProd.configure at h
  split_ifs at h
  all_goals first
  | exact Except.noConfusion h
  | (injection h with h
     subst h
     refine ⟨fun s hs => by simp [hs], fun s hs => by simp [hs],
       fun l hl => by simp [hl], fun l hl => by simp [hl], ?_, ?_⟩ <;>
     rcases happ : app.inputFiles with s | l <;>
     rcases happ2 : app.outputFiles with s2 | l2 <;>
     simp [happ, happ2, FileField.isList])

/-- C10 witness: configuring an application whose `inputFiles` is the
bare string `f.root` yields the field `['f.root']`. -/
theorem configure_normalizes_file_fields_witness :
    RATProd.configure cfgApp0 {} = .ok cfgRes0 ∧
    cfgRes0.1.inputFiles = .list ["f.root"] ∧ cfgRes0.1.outputFiles.isList = true :=
  ⟨rfl,
   (configure_normalizes_file_fields cfgApp0 {} cfgRes0 rfl).1 ("f.root") rfl,
   (configure_normalizes_file_fields cfgApp0 {} cfgRes0 rfl).2.2.2.2.2⟩

/-- C4: with no environment override, the list-form assembly is exactly
the fixed-order sequence: `-v` version, `-s` software dir, `-d` output
dir, `-o` output list, `-x` input dir, `-i` input list, then `-m` macro
file in macro mode or `-k -m` script file in script mode, then the
database tokens iff `useDB`, then `--nostore` iff `discardOutput`; in
particular a macro-mode run with `discardOutput` gets a bare `-m` token
block and ends with `--nostore`. -/
theorem rthandler_args_fixed_order (appDir login : String) (app : RATProd)
    (config : DBConfig) (hdir : app.ratDirectory ≠ "") (henv : app.environment = .noEnv) :
    RTHandler.prepare appDir login app config = .ok ⟨appDir ++ "/ratProdRunner.py",
      baseTokens app ++ modeTokens app ++
      (if app.useDB then dbArgTokens config else []) ++ storeTokens app⟩ ∧
    (app.ratMacroPath ≠ "" → app.discardOutput = true →
      modeTokens app = ["-m", lastSlashComponent app.ratMacroPath] ∧
      (baseTokens app ++ modeTokens app ++
        (if app.useDB then dbArgTokens config else []) ++
        storeTokens app).getLast? = Option.some ("--nostore")) := by
  constructor
  · simp only [RTHandler.prepare, if_neg hdir, henv]
    simp [baseTokens, modeTokens, storeTokens, List.append_assoc]
  · intro hm hd
    refine ⟨by simp [modeTokens, hm], ?_⟩
    have hstore : storeTokens app = ["--nostore"] := by simp [storeTokens, hd]
    rw [hstore, List.getLast?_concat]

/-- C4 witness: macro mode, explicit software directory, discarded
output. -/
theorem rthandler_args_fixed_order_witness :
    prepApp0.ratDirectory ≠ "" ∧ prepApp0.environment = .noEnv ∧
    RTHandler.prepare ("A") ("me") prepApp0 {} = .ok ⟨"A" ++ "/ratProdRunner.py",
      baseTokens prepApp0 ++ modeTokens prepApp0 ++
      (if prepApp0.useDB then dbArgTokens {} else []) ++ storeTokens prepApp0⟩ :=
  ⟨by decide, rfl,
   (rthandler_args_fixed_order ("A") ("me") prepApp0 {} (by decide) rfl).1⟩

/-- C5: whenever `useDB` is set the assembler appends exactly the five
database pairs `--dbuser`, `--dbpassword`, `--dbname`, `--dbprotocol`,
`--dburl` in that order with the configured values — with no hypothesis
on any `DBConfig` field, i.e. no validation that user, name, protocol or
url are populated — and when `useDB` is off none of the five flags is
emitted (the user-controlled value tokens being distinct from the flag
names). -/
theorem rthandler_db_tokens (appDir login : String) (app : RATProd)
    (config : DBConfig) (hdir : app.ratDirectory ≠ "") (henv : app.environment = .noEnv) :
    (app.useDB = true →
      RTHandler.prepare appDir login app config = .ok ⟨appDir ++ "/ratProdRunner.py",
        (baseTokens app ++ modeTokens app) ++ dbArgTokens config ++ storeTokens app⟩) ∧
    (app.useDB = false →
      RTHandler.prepare appDir login app config = .ok ⟨appDir ++ "/ratProdRunner.py",
        (baseTokens app ++ modeTokens app) ++ storeTokens app⟩ ∧
      ∀ fl ∈ dbFlagNames, fl ∉ valueTokens app →
        fl ∉ baseTokens app ++ modeTokens app ++ storeTokens app) := by
  constructor
  · intro hdb
    simp only [RTHandler.prepare, if_neg hdir, henv]
    simp [baseTokens, modeTokens, storeTokens, hdb, List.append_assoc]
  · intro hdb
    constructor
    · simp only [RTHandler.prepare, if_neg hdir, henv]
      simp [baseTokens, modeTokens, storeTokens, hdb, List.append_assoc]
    · intro fl hfl hval
      simp only [dbFlagNames, List.mem_cons, List.not_mem_nil, or_false] at hfl
      simp only [valueTokens, List.mem_cons, List.not_mem_nil, or_false, not_or] at hval
      obtain ⟨hv1, hv2, hv3, hv4, hv5, hv6, hv7, hv8⟩ := hval
      simp only [baseTokens, modeTokens, storeTokens, List.mem_append, List.mem_cons,
        List.not_mem_nil, or_false, not_or]
      rcases hfl with rfl | rfl | rfl | rfl | rfl <;>
        split_ifs <;>
        simp_all

/-- C5 witness: with `useDB` on and a completely unset registry the five
database pairs are still appended. -/
theorem rthandler_db_tokens_witness :
    prepApp1.useDB = true ∧
    RTHandler.prepare ("A") ("me") prepApp1 {} = .ok ⟨"A" ++ "/ratProdRunner.py",
      (baseTokens prepApp1 ++ modeTokens prepApp1) ++ dbArgTokens {} ++ storeTokens prepApp1⟩ :=
  ⟨rfl, (rthandler_db_tokens ("A") ("me") prepApp1 {} (by decide) rfl).1 rfl⟩

/-- C2: `RATSplitter.split` raises exactly when a validation rule is
violated — scripts and macros both given or both missing, no input and no
output files, input and output lists both given with different lengths,
or the populated script-or-macro list not matching the file count — and
returns normally otherwise. -/
theorem split_error_iff {α β : Type} (r : SplitRequest α β) :
    RATSplitter.split r = .error () ↔
      ((r.prodScript ≠ [] ∧ r.ratMacros ≠ []) ∨
       (r.prodScript = [] ∧ r.ratMacros = []) ∨
       (r.inputFiles = [] ∧ r.outputFiles = []) ∨
       (r.inputFiles ≠ [] ∧ r.outputFiles ≠ [] ∧
         r.inputFiles.length ≠ r.outputFiles.length) ∨
       (r.prodScript ≠ [] ∧ r.prodScript.length ≠ r.fileCount) ∨
       (r.ratMacros ≠ [] ∧ r.ratMacros.length ≠ r.fileCount)) := by
  unfold RATSplitter.split
  split_ifs with h1 h2 h3 h4 h5 h6
  · simp only [ne_eq, List.length_eq_zero] at h1
    exact iff_of_true rfl (Or.inl h1)
  · simp only [List.length_eq_zero] at h2
    exact iff_of_true rfl (Or.inr (Or.inl h2))
  · simp only [List.length_eq_zero] at h3
    exact iff_of_true rfl (Or.inr (Or.inr (Or.inl h3)))
  · simp only [ne_eq, List.length_eq_zero] at h4
    exact iff_of_true rfl (Or.inr (Or.inr (Or.inr (Or.inl h4))))
  · simp only [ne_eq, List.length_eq_zero] at h5
    exact iff_of_true rfl (Or.inr (Or.inr (Or.inr (Or.inr (Or.inl h5)))))
  · simp only [ne_eq, List.length_eq_zero] at h6
    exact iff_of_true rfl (Or.inr (Or.inr (Or.inr (Or.inr (Or.inr h6)))))
  · refine iff_of_false (by simp) ?_
    simp only [ne_eq, List.length_eq_zero] at h1 h2 h3 h4 h5 h6
    tauto

/-- C1: a validated split returns exactly `fileCount` subjobs (the common
length of the non-empty input/output sequences), in ascending index
order, and subjob `i` carries `outputFiles[i]` when outputs are present,
`inputFiles[i]` when inputs are present, and exactly one of
`ratMacro`/`prodScript` set to the `i`-th entry of the populated
sequence. -/
theorem split_subjobs_spec {α β : Type} (r : SplitRequest α β)
    (subjobs : List (SubJob α β)) (h : RATSplitter.split r = .ok subjobs) :
    subjobs.length = r.fileCount ∧
    (r.outputFiles ≠ [] → r.fileCount = r.outputFiles.length) ∧
    (r.inputFiles ≠ [] → r.fileCount = r.inputFiles.length) ∧
    ∀ i, (hi : i < subjobs.length) →
      (r.outputFiles ≠ [] → i < r.outputFiles.length ∧
        subjobs[i].outputFiles = r.outputFiles[i]?) ∧
      (r.outputFiles = [] → subjobs[i].outputFiles = Option.none) ∧
      (r.inputFiles ≠ [] → i < r.inputFiles.length ∧
        subjobs[i].inputFiles = r.inputFiles[i]?) ∧
      (r.inputFiles = [] → subjobs[i].inputFiles = Option.none) ∧
      (r.ratMacros ≠ [] → i < r.ratMacros.length ∧
        subjobs[i].ratMacroPath = r.ratMacros[i]? ∧
        subjobs[i].prodScript = Option.none) ∧
      (r.ratMacros = [] → i < r.prodScript.length ∧
        subjobs[i].prodScript = r.prodScript[i]? ∧
        subjobs[i].ratMacroPath = Option.none) := by
  unfold RATSplitter.split at h
  by_cases c1 : r.prodScript.length ≠ 0 ∧ r.ratMacros.length ≠ 0
  · rw [if_pos c1] at h; exact Except.noConfusion h
  rw [if_neg c1] at h
  by_cases c2 : r.prodScript.length = 0 ∧ r.ratMacros.length = 0
  · rw [if_pos c2] at h; exact Except.noConfusion h
  rw [if_neg c2] at h
  by_cases c3 : r.inputFiles.length = 0 ∧ r.outputFiles.length = 0
  · rw [if_pos c3] at h; exact Except.noConfusion h
  rw [if_neg c3] at h
  by_cases c4 : r.inputFiles.length ≠ 0 ∧ r.outputFiles.length ≠ 0 ∧
      r.inputFiles.length ≠ r.outputFiles.length
  · rw [if_pos c4] at h; exact Except.noConfusion h
  rw [if_neg c4] at h
  by_cases c5 : r.prodScript.length ≠ 0 ∧ r.prodScript.length ≠ r.fileCount
  · rw [if_pos c5] at h; exact Except.noConfusion h
  rw [if_neg c5] at h
  by_cases c6 : r.ratMacros.length ≠ 0 ∧ r.ratMacros.length ≠ r.fileCount
  · rw [if_pos c6] at h; exact Except.noConfusion h
  rw [if_neg c6] at h
  injection h with h
  subst h
  have hfc_out : r.outputFiles.length ≠ 0 → r.fileCount = r.outputFiles.length := by
    intro hob; simp [SplitRequest.fileCount, hob]
  have hfc_noout : r.outputFiles.length = 0 → r.fileCount = r.inputFiles.length := by
    intro hob; simp [SplitRequest.fileCount, hob]
  push_neg at c4 c5 c6
  have h2 := c2
  have h4 := c4
  have h5 := c5
  have h6 := c6
  refine ⟨by simp, ?_, ?_, ?_⟩
  · intro hout
    exact hfc_out (by simpa [List.length_eq_zero] using hout)
  · intro hin
    have hib : r.inputFiles.length ≠ 0 := by simpa [List.length_eq_zero] using hin
    by_cases hob : r.outputFiles.length = 0
    · exact hfc_noout hob
    · have e1 := hfc_out hob
      have e2 := h4 hib hob
      omega
  · intro i hi
    have hi' : i < r.fileCount := by simpa using hi
    refine ⟨?_, ?_, ?_, ?_, ?_, ?_⟩
    · intro hout
      have hob : r.outputFiles.length ≠ 0 := by simpa [List.length_eq_zero] using hout
      have hfc := hfc_out hob
      refine ⟨by omega, ?_⟩
      simp [List.getElem_map, List.getElem_range, hob]
    · intro hout
      have hob : r.outputFiles.length = 0 := by simp [hout]
      simp [List.getElem_map, List.getElem_range, hob]
    · intro hin
      have hib : r.inputFiles.length ≠ 0 := by simpa [List.length_eq_zero] using hin
      have hbound : i < r.inputFiles.length := by
        by_cases hob : r.outputFiles.length = 0
        · have := hfc_noout hob; omega
        · have e1 := hfc_out hob
          have e2 := h4 hib hob
          omega
      refine ⟨hbound, ?_⟩
      simp [List.getElem_map, List.getElem_range, hib]
    · intro hin
      have hib : r.inputFiles.length = 0 := by simp [hin]
      simp [List.getElem_map, List.getElem_range, hib]
    · intro hmac
      have hmb : r.ratMacros.length ≠ 0 := by simpa [List.length_eq_zero] using hmac
      have e := h6 hmb
      refine ⟨by omega, ?_, ?_⟩ <;>
        simp [List.getElem_map, List.getElem_range, hmb]
    · intro hmac
      have hmb : r.ratMacros.length = 0 := by simp [hmac]
      have hpb : r.prodScript.length ≠ 0 := by
        intro hps
        exact h2 ⟨hps, hmb⟩
      have e := h5 hpb
      refine ⟨by omega, ?_, ?_⟩ <;>
        simp [List.getElem_map, List.getElem_range, hmb]

/-- C1 witness: two output groups, two input groups, two macros give two
subjobs carrying the indexed slices. -/
theorem split_subjobs_spec_witness :
    RATSplitter.split splitReq0 = .ok splitSub0 ∧
    splitSub0.length = splitReq0.fileCount :=
  ⟨rfl, (split_subjobs_spec splitReq0 splitSub0 rfl).1⟩

/-- C7 counterexample: the LCG handler does not fail on an empty
`ratDirectory` — `prepare` returns a job configuration (it substitutes
the default grid software directory instead of raising). -/
theorem lcg_prepare_empty_dir_counterexample :
    lcgApp0.ratDirectory = "" ∧
    exceptOk (LCGRTHandler.prepare ("A") lcgApp0 {}) = true ∧
    lcgSwDir lcgApp0 = "$VO_SNOPLUS_SNOLAB_CA_SW_DIR/snoing-install" :=
  ⟨rfl, rfl, rfl⟩

/-- C7 (amended): with an empty `ratDirectory` the local/batch handler
and the WestGrid handler fail before touching any file, while the LCG
handler instead substitutes the default grid software directory and
returns normally. -/
theorem prepare_empty_ratdirectory (appDir login : String) (app : RATProd)
    (config : DBConfig) (bvp evp : Option String) (fx : String → Bool)
    (hdir : app.ratDirectory = "") :
    RTHandler.prepare appDir login app config = .error () ∧
    WGRTHandler.prepare appDir app config bvp evp fx = .error () ∧
    LCGRTHandler.prepare appDir app config = .ok ⟨appDir ++ "/sillyPythonWrapper.py",
      ["-s", "ratProdRunner.py", "-l", "lcg", "-a",
        "\"" ++ ("-g lcg " ++
          coreArgString app ("$VO_SNOPLUS_SNOLAB_CA_SW_DIR/snoing-install") ++
          (if app.useDB then dbArgString config else "") ++
          (if app.discardOutput then "--nostore " else "")) ++ "\""]⟩ := by
  refine ⟨?_, ?_, ?_⟩
  · unfold RTHandler.prepare
    rw [if_pos hdir]
  · unfold WGRTHandler.prepare
    rw [if_pos hdir]
  · simp only [LCGRTHandler.prepare, lcgSwDir, if_pos hdir, coreArgString, dbArgString,
      String.empty_append, String.append_assoc]

/-- C7 amended witness at a concrete macro-mode application with empty
`ratDirectory`. -/
theorem prepare_empty_ratdirectory_witness :
    lcgApp0.ratDirectory = "" ∧
    RTHandler.prepare ("A") ("me") lcgApp0 {} = .error () ∧
    WGRTHandler.prepare ("A") lcgApp0 {} Option.none Option.none (fun _ => true) = .error () :=
  ⟨rfl,
   (prepare_empty_ratdirectory ("A") ("me") lcgApp0 {} Option.none Option.none
     (fun _ => true) rfl).1,
   (prepare_empty_ratdirectory ("A") ("me") lcgApp0 {} Option.none Option.none
     (fun _ => true) rfl).2.1⟩

/-- C9: both grid handlers prefix the assembled string with their grid
protocol flag (`-g srm` for WestGrid, `-g lcg` for LCG) before all other
tokens, the WestGrid handler inserts `--voproxy <path>` after the
run-file token and before any database tokens, and both wrap the whole
string inside the outer wrapper-script argument list carrying the
launcher-kind tag (`wg` / `lcg`). -/
theorem grid_handlers_arg_shape (appDir : String) (app : RATProd)
    (config : DBConfig) (vp : String) (envProxy : Option String)
    (fx : String → Bool) (hdir : app.ratDirectory ≠ "") (hfx : fx vp = true) :
    WGRTHandler.prepare appDir app config (Option.some vp) envProxy fx =
      .ok ⟨appDir ++ "/sillyPythonWrapper.py",
        ["-s", "ratProdRunner.py", "-l", "wg", "-a",
          "-g srm " ++ coreArgString app app.ratDirectory ++
          ("--voproxy " ++ vp ++ " ") ++
          (if app.useDB then dbArgString config else "") ++
          (if app.discardOutput then "--nostore " else "")]⟩ ∧
    LCGRTHandler.prepare appDir app config =
      .ok ⟨appDir ++ "/sillyPythonWrapper.py",
        ["-s", "ratProdRunner.py", "-l", "lcg", "-a",
          "\"" ++ ("-g lcg " ++ coreArgString app (lcgSwDir app) ++
            (if app.useDB then dbArgString config else "") ++
            (if app.discardOutput then "--nostore " else "")) ++ "\""]⟩ := by
  constructor
  · simp only [WGRTHandler.prepare, if_neg hdir, hfx, coreArgString, dbArgString,
      String.empty_append, String.append_assoc]
    simp
  · simp only [LCGRTHandler.prepare, coreArgString, dbArgString,
      String.empty_append, String.append_assoc]

/-- C9 witness at a concrete macro-mode application and proxy path. -/
theorem grid_handlers_arg_shape_witness :
    prepApp0.ratDirectory ≠ "" ∧ (fun _ : String => true) "vp" = true ∧
    LCGRTHandler.prepare ("A") prepApp0 {} =
      .ok ⟨"A" ++ "/sillyPythonWrapper.py",
        ["-s", "ratProdRunner.py", "-l", "lcg", "-a",
          "\"" ++ ("-g lcg " ++ coreArgString prepApp0 (lcgSwDir prepApp0) ++
            (if prepApp0.useDB then dbArgString {} else "") ++
            (if prepApp0.discardOutput then "--nostore " else "")) ++ "\""]⟩ :=
  ⟨by decide, rfl,
   (grid_handlers_arg_shape ("A") prepApp0 {} "vp" Option.none
     (fun _ => true) (by decide) rfl).2⟩
